import Mathlib

/-!
Verification development for the EIA-861 electricity data build pipeline
(`src/utils/build_electricity_data.py`).

The embedding models a pandas DataFrame cell as `Option String` when the code
works on the raw grid (`pd.read_excel(..., header=None)`), where `none` is a
missing cell (NaN) and `some s` is the textual content of the cell; the code's
`astype(str)` renders a missing cell as the string "nan", which `cellStr`
mirrors.  Typed cells of an already-normalized table are modelled by `Cell`
(missing / numeric / string).  Machine floats of pandas are modelled as exact
rationals; only plain decimal literals occur in the claims under study.
-/

namespace Electricity

/-- Boolean test that the first list is a prefix of the second
(character-wise equality). -/
def listPrefixB : List Char → List Char → Bool
  | [], _ => true
  | _ :: _, [] => false
  | a :: as, b :: bs => a == b && listPrefixB as bs

/-- Boolean substring test on character lists: the Python `needle in hay`
operator.  The empty needle is contained in everything. -/
def listSubB (needle : List Char) : List Char → Bool
  | [] => needle.isEmpty
  | b :: bs => listPrefixB needle (b :: bs) || listSubB needle bs

/-- Relation `strContains hay needle` models the Python expression `needle in hay`. -/
def strContains (hay needle : String) : Bool :=
  listSubB needle.data hay.data

/-- ASCII lowercasing of one character, as Python `str.lower` acts on
the header text of these files. -/
def charLower (c : Char) : Char :=
  if 65 ≤ c.toNat && c.toNat ≤ 90 then Char.ofNat (c.toNat + 32) else c

/-- Python `str.lower()` on a whole string. -/
def lowerStr (s : String) : String :=
  String.mk (s.data.map charLower)

/-- Python `str.strip()`: remove leading and trailing whitespace. -/
def trimStr (s : String) : String :=
  String.mk (((s.data.dropWhile Char.isWhitespace).reverse.dropWhile
    Char.isWhitespace).reverse)

/-- Python `s.replace(",", "")`: remove every comma. -/
def stripCommas (s : String) : String :=
  String.mk (s.data.filter (fun c => !(c == ',')))

/-- A raw grid cell: `none` is pandas NaN, `some s` the cell text. -/
abbrev RawCell := Option String

/-- Models `astype(str)` on a single cell: NaN prints as "nan". -/
def cellStr : RawCell → String
  | none => "nan"
  | some s => s

/-- First index in a list satisfying a predicate, scanning left to right:
the shape of the `for ... : if ...: break` loops in the source. -/
def firstIdx (p : α → Bool) : List α → Option Nat
  | [] => none
  | a :: l => if p a then some 0 else (firstIdx p l).map (· + 1)

theorem firstIdx_spec (p : α → Bool) (d : α) :
    ∀ (l : List α) (i : Nat), firstIdx p l = some i →
      i < l.length ∧ p (l.getD i d) = true ∧ ∀ j, j < i → p (l.getD j d) = false := by
  intro l
  induction l with
  | nil => intro i h; simp [firstIdx] at h
  | cons a t ih =>
    intro i h
    by_cases hp : p a = true
    · simp [firstIdx, hp] at h
      subst h
      exact ⟨Nat.succ_pos _, hp, fun j hj => absurd hj (Nat.not_lt_zero j)⟩
    · simp [firstIdx, hp] at h
      obtain ⟨i', hi', rfl⟩ := h
      obtain ⟨hlen, hget, hmin⟩ := ih i' hi'
      refine ⟨Nat.succ_lt_succ hlen, by simpa using hget, ?_⟩
      intro j hj
      cases j with
      | zero => simpa using hp
      | succ j' => simpa using hmin j' (Nat.lt_of_succ_lt_succ hj)

theorem firstIdx_isSome (p : α → Bool) (d : α) :
    ∀ (l : List α), (∃ i, i < l.length ∧ p (l.getD i d) = true) →
      (firstIdx p l).isSome = true := by
  intro l
  induction l with
  | nil => rintro ⟨i, hi, _⟩; simp at hi
  | cons a t ih =>
    rintro ⟨i, hi, hp⟩
    by_cases hpa : p a = true
    · simp [firstIdx, hpa]
    · cases i with
      | zero => simp at hp; exact absurd hp hpa
      | succ i' =>
        have := ih ⟨i', Nat.lt_of_succ_lt_succ hi, by simpa using hp⟩
        obtain ⟨v, hv⟩ := Option.isSome_iff_exists.mp this
        simp [firstIdx, hpa, hv]

/-! ### Fuzzy column resolver (`find_col`, source lines 138-160) -/

/-- Translation of the matching loop of `find_col`: first column whose
lowercased name contains every string of `incl` and none of `excl`
(both also lowercased), in original column order. -/
def find_col (cols : List String) (incl excl : List String) : Option String :=
  cols.find? (fun c =>
    incl.all (fun s => strContains (lowerStr c) (lowerStr s)) &&
    !(excl.any (fun s => strContains (lowerStr c) (lowerStr s))))

/-- The error raised at source lines 154-159: it names the field
(`label or include`) and carries the available columns printed for
diagnosis. -/
structure ResolveError where
  field : String
  available : List String
  deriving DecidableEq

/-- A canonical output field: ordered fallback keyword-sets
(include set, exclude set) and a required flag, as the loaders encode
with chains of `find_col` calls. -/
structure FieldSpec where
  name : String
  fallbacks : List (List String × List String)
  required : Bool

/-- One field resolution as the loaders perform it: try the fallback
keyword-sets in order via `find_col`, first match wins; a required field
with no match fails with the error of source lines 154-159. -/
def resolveField (cols : List String) (fs : FieldSpec) :
    Except ResolveError (Option String) :=
  match fs.fallbacks.findSome? (fun p => find_col cols p.1 p.2) with
  | some c => Except.ok (some c)
  | none =>
    if fs.required then Except.error ⟨fs.name, cols⟩
    else Except.ok none

/-- The schema normalizer of the loaders (spec section 4.3): apply the
column resolver once per field spec in declared order; a raised
`ResolveError` aborts the whole normalization (the Python exception
propagates out of `load_*_schedule`). -/
def normalize (schema : List FieldSpec) (cols : List String) :
    Except ResolveError (List (String × Option String)) :=
  match schema with
  | [] => Except.ok []
  | fs :: rest =>
    match resolveField cols fs with
    | Except.error e => Except.error e
    | Except.ok c =>
      match normalize rest cols with
      | Except.error e => Except.error e
      | Except.ok tl => Except.ok ((fs.name, c) :: tl)

theorem resolveField_error_shape (cols : List String) (fs : FieldSpec)
    (e : ResolveError) (h : resolveField cols fs = Except.error e) :
    e = ⟨fs.name, cols⟩ ∧ fs.required = true := by
  unfold resolveField at h
  cases hf : fs.fallbacks.findSome? (fun p => find_col cols p.1 p.2) with
  | some c => simp [hf] at h
  | none =>
    rw [hf] at h
    by_cases hr : fs.required = true
    · simp [hr] at h
      exact ⟨h.symm, hr⟩
    · simp [hr] at h

theorem resolveField_required_none (cols : List String) (fs : FieldSpec)
    (hreq : fs.required = true)
    (hno : ∀ p ∈ fs.fallbacks, find_col cols p.1 p.2 = none) :
    resolveField cols fs = Except.error ⟨fs.name, cols⟩ := by
  unfold resolveField
  have : fs.fallbacks.findSome? (fun p => find_col cols p.1 p.2) = none := by
    rw [List.findSome?_eq_none_iff]
    exact hno
  rw [this, hreq]
  simp

/-! ### Header locator (`detect_header_row`, source lines 39-76) -/

/-- The per-schedule marker keyword lists of source lines 47-54. -/
def markersFor (schedule : String) : List String :=
  if schedule = "utility" then
    ["data year", "utility number", "utility name", "state"]
  else if schedule = "operational" then
    ["data year", "utility number", "summer", "winter", "demand"]
  else if schedule = "sales" then
    ["data year", "utility number", "state", "residential", "commercial", "industrial"]
  else
    ["data year", "utility number", "utility name"]

/-- The lowered marker list (`markers = [m.lower() for m in markers]`). -/
def markersOf (schedule : String) : List String :=
  (markersFor schedule).map lowerStr

/-- Row score of source lines 61-64: the number of markers contained
(as substrings) in at least one lowered cell of the row. -/
def rowScore (markers : List String) (row : List RawCell) : Nat :=
  (markers.filter (fun m => row.any (fun c => strContains (lowerStr (cellStr c)) m))).length

/-- The acceptance threshold `max(2, len(markers) // 2)` of line 65. -/
def headerThreshold (markers : List String) : Nat :=
  max 2 (markers.length / 2)

/-- Function `detect_header_row`: first row whose score reaches the threshold;
row 0 as fallback when no row qualifies (lines 71-74). -/
def detect_header_row (schedule : String) (rows : List (List RawCell)) : Nat :=
  match firstIdx
      (fun r => decide (headerThreshold (markersOf schedule) ≤
        rowScore (markersOf schedule) r)) rows with
  | some i => i
  | none => 0

/-! ### Join-key column resolution (`get_utility_id_col`, source lines 90-135) -/

/-- The exact-name candidate list of source lines 99-109. -/
def id_candidates : List String :=
  ["utility number", "utility id", "eia utility id", "utility_identifier",
   "respondent id", "respondentid", "respondent identification", "entity id", "eiaid"]

/-- Stage 1 of the cascade: the first candidate key present in the
`{lowered name ↦ column}` dictionary; on duplicate lowered names the
dictionary keeps the last column, hence `getLast?`. -/
def idStage1 (cols : List String) : Option String :=
  id_candidates.findSome? (fun k => (cols.filter (fun c => lowerStr c == k)).getLast?)

/-- Stage 2: any column containing both "utility" and "number". -/
def idStage2 (cols : List String) : Option String :=
  cols.find? (fun c => strContains (lowerStr c) "utility" && strContains (lowerStr c) "number")

/-- Stage 3: any column containing both "respondent" and "id". -/
def idStage3 (cols : List String) : Option String :=
  cols.find? (fun c => strContains (lowerStr c) "respondent" && strContains (lowerStr c) "id")

/-- Stage 4 (warned): any column containing both "utility" and "name". -/
def idStage4 (cols : List String) : Option String :=
  cols.find? (fun c => strContains (lowerStr c) "utility" && strContains (lowerStr c) "name")

/-- Function `get_utility_id_col`: the four stages in order, then the first column
of the table as last resort (with a warning in the source). -/
def get_utility_id_col (cols : List String) : Option String :=
  match idStage1 cols with
  | some c => some c
  | none =>
    match idStage2 cols with
    | some c => some c
    | none =>
      match idStage3 cols with
      | some c => some c
      | none =>
        match idStage4 cols with
        | some c => some c
        | none => cols.head?

/-! ### Typed cells and DataFrames -/

/-- A typed cell of a normalized table: pandas NaN, a numeric value, or a
string value. -/
inductive Cell where
  | na
  | num (q : ℚ)
  | str (s : String)
  deriving DecidableEq

def cellIsNa : Cell → Bool
  | Cell.na => true
  | _ => false

/-- A DataFrame: named columns over rows of typed cells. -/
structure DFrame where
  cols : List String
  rows : List (List Cell)
  deriving DecidableEq

/-- Lookup `df[name]` by label: the cell at the first column of that name in
each row (`Cell.na` past a ragged row end). -/
def dfColumn (df : DFrame) (name : String) : List Cell :=
  match firstIdx (fun c => c == name) df.cols with
  | some j => df.rows.map (fun r => r.getD j Cell.na)
  | none => df.rows.map (fun _ => Cell.na)

/-- Assignment `df["__x_dummy__"] = pd.NA`: append an all-missing column. -/
def addDummy (df : DFrame) (name : String) : DFrame :=
  ⟨df.cols ++ [name], df.rows.map (fun r => r ++ [Cell.na])⟩

/-- Element-wise pandas `+` on two cells: numbers add, strings
concatenate, missing propagates. -/
def cellAdd : Cell → Cell → Cell
  | Cell.num a, Cell.num b => Cell.num (a + b)
  | Cell.str a, Cell.str b => Cell.str (a ++ b)
  | _, _ => Cell.na

/-- Column-wise pandas `+`. -/
def colAdd (xs ys : List Cell) : List Cell :=
  List.zipWith cellAdd xs ys

/-! ### Operational schedule loader
(`load_operational_schedule`, source lines 207-367) -/

/-- Version of `find_col` returning the hard error of a required field, used for
the `required=True` calls of the operational loader. -/
def findColR (cols : List String) (incl excl : List String) (label : String) :
    Except ResolveError String :=
  match find_col cols incl excl with
  | some c => Except.ok c
  | none => Except.error ⟨label, cols⟩

/-- A soft cascade of `find_col` calls followed, on total failure, by the
creation of an all-missing dummy column (the `required=False` pattern of
the operational loader).  Returns the possibly extended frame and the
chosen column name. -/
def resolveOrDummy (df : DFrame) (cascades : List (List String × List String))
    (dummy : String) : DFrame × String :=
  match cascades.findSome? (fun p => find_col df.cols p.1 p.2) with
  | some c => (df, c)
  | none => (addDummy df dummy, dummy)

def opCascadeOtherSrc : List (List String × List String) :=
  [(["other", "source"], []), (["other", "supply"], [])]

def opCascadeTotalSrc : List (List String × List String) :=
  [(["total", "sources"], []), (["total", "energy", "sources"], [])]

def opCascadeRetail : List (List String × List String) :=
  [(["sales", "ultimate", "customers"], []), (["sales", "to", "ultimate"], []),
   (["retail", "sales"], []), (["sales"], ["for resale"])]

def opCascadeLosses : List (List String × List String) :=
  [(["total", "energy", "loss"], []), (["losses"], [])]

def opCascadeUsesTotal : List (List String × List String) :=
  [(["total", "disposition"], []), (["total", "uses"], [])]

/-- Frame state after the Sources.Other step (line 234-239). -/
def opDf1 (df0 : DFrame) : DFrame :=
  (resolveOrDummy df0 opCascadeOtherSrc "__other_sources_dummy__").1

def opOtherSrcCol (df0 : DFrame) : String :=
  (resolveOrDummy df0 opCascadeOtherSrc "__other_sources_dummy__").2

/-- Frame state after the Sources.Total step (lines 242-247). -/
def opDf2 (df0 : DFrame) : DFrame :=
  (resolveOrDummy (opDf1 df0) opCascadeTotalSrc "__total_sources_dummy__").1

def opTotalSrcCol (df0 : DFrame) : String :=
  (resolveOrDummy (opDf1 df0) opCascadeTotalSrc "__total_sources_dummy__").2

/-- Frame state after the Uses.Retail step (lines 255-273). -/
def opDf3 (df0 : DFrame) : DFrame :=
  (resolveOrDummy (opDf2 df0) opCascadeRetail "__uses_retail_dummy__").1

def opRetailCol (df0 : DFrame) : String :=
  (resolveOrDummy (opDf2 df0) opCascadeRetail "__uses_retail_dummy__").2

/-- Frame state after the Uses.Losses step (lines 287-297). -/
def opDf4 (df0 : DFrame) : DFrame :=
  (resolveOrDummy (opDf3 df0) opCascadeLosses "__losses_dummy__").1

def opLossesCol (df0 : DFrame) : String :=
  (resolveOrDummy (opDf3 df0) opCascadeLosses "__losses_dummy__").2

/-- Frame state after the Uses.Total step (lines 301-306): the frame the
revenue fields and the Revenue.Total lookup are resolved against. -/
def opDf5 (df0 : DFrame) : DFrame :=
  (resolveOrDummy (opDf4 df0) opCascadeUsesTotal "__uses_total_dummy__").1

def opUsesTotalCol (df0 : DFrame) : String :=
  (resolveOrDummy (opDf4 df0) opCascadeUsesTotal "__uses_total_dummy__").2

/-- The canonical columns produced by the operational loader. -/
structure OpOut where
  utilityNumber : List Cell
  summerPeak : List Cell
  winterPeak : List Cell
  generation : List Cell
  purchased : List Cell
  sourcesOther : List Cell
  sourcesTotal : List Cell
  usesRetail : List Cell
  usesResale : List Cell
  usesNoCharge : List Cell
  usesConsumed : List Cell
  usesLosses : List Cell
  usesTotal : List Cell
  revRetail : List Cell
  revDelivery : List Cell
  revResale : List Cell
  revAdjustments : List Cell
  revTransmission : List Cell
  revOther : List Cell
  revTotal : List Cell
  deriving DecidableEq, Inhabited

/-- Function `load_operational_schedule`: required fields in source order, the five
soft cascades extending the frame with dummy columns, and Revenue.Total
taken verbatim from an explicit total column when one resolves and
otherwise as the sum of the six resolved revenue constituents
(lines 346-365). -/
def load_operational (df0 : DFrame) : Except ResolveError OpOut := do
  let summer ← findColR df0.cols ["summer", "peak", "demand"] [] "Demand.Summer Peak"
  let winter ← findColR df0.cols ["winter", "peak", "demand"] [] "Demand.Winter Peak"
  let gen ← findColR df0.cols ["net", "generation"] [] "Sources.Generation"
  let purch ← findColR df0.cols ["wholesale", "power", "purchases"] [] "Sources.Purchased"
  let resale ← findColR (opDf3 df0).cols ["sales", "for resale"] [] "Uses.Resale"
  let noCharge ← findColR (opDf3 df0).cols ["furnished", "without", "charge"] [] "Uses.No Charge"
  let consumed ← findColR (opDf3 df0).cols ["consumed", "respondent"] [] "Uses.Consumed"
  let rvRetail ← findColR (opDf5 df0).cols ["from", "retail", "sales"] [] "Revenues.Retail"
  let rvDelivery ← findColR (opDf5 df0).cols ["from", "delivery", "customers"] [] "Revenue.Delivery"
  let rvResale ← findColR (opDf5 df0).cols ["from", "sales", "for resale"] [] "Revenue.Resale"
  let rvAdjust ← findColR (opDf5 df0).cols ["from", "credits", "adjustments"] [] "Revenue.Adjustments"
  let rvTransm ← findColR (opDf5 df0).cols ["from", "transmission"] [] "Revenue.Transmission"
  let rvOther ← findColR (opDf5 df0).cols ["from", "other"] [] "Revenue.Other"
  Except.ok
    { utilityNumber := dfColumn df0 ((get_utility_id_col df0.cols).getD "")
      summerPeak := dfColumn df0 summer
      winterPeak := dfColumn df0 winter
      generation := dfColumn df0 gen
      purchased := dfColumn df0 purch
      sourcesOther := dfColumn (opDf1 df0) (opOtherSrcCol df0)
      sourcesTotal := dfColumn (opDf2 df0) (opTotalSrcCol df0)
      usesRetail := dfColumn (opDf3 df0) (opRetailCol df0)
      usesResale := dfColumn (opDf3 df0) resale
      usesNoCharge := dfColumn (opDf3 df0) noCharge
      usesConsumed := dfColumn (opDf3 df0) consumed
      usesLosses := dfColumn (opDf4 df0) (opLossesCol df0)
      usesTotal := dfColumn (opDf5 df0) (opUsesTotalCol df0)
      revRetail := dfColumn (opDf5 df0) rvRetail
      revDelivery := dfColumn (opDf5 df0) rvDelivery
      revResale := dfColumn (opDf5 df0) rvResale
      revAdjustments := dfColumn (opDf5 df0) rvAdjust
      revTransmission := dfColumn (opDf5 df0) rvTransm
      revOther := dfColumn (opDf5 df0) rvOther
      revTotal :=
        match find_col (opDf5 df0).cols ["total"] ["sales", "customers", "mwh", "kwh"] with
        | some c => dfColumn (opDf5 df0) c
        | none =>
          colAdd (colAdd (colAdd (colAdd (colAdd
            (dfColumn (opDf5 df0) rvRetail) (dfColumn (opDf5 df0) rvDelivery))
            (dfColumn (opDf5 df0) rvResale)) (dfColumn (opDf5 df0) rvAdjust))
            (dfColumn (opDf5 df0) rvTransm)) (dfColumn (opDf5 df0) rvOther) }

theorem findColR_ok (cols : List String) (incl excl : List String) (label : String)
    (c : String) (h : findColR cols incl excl label = Except.ok c) :
    find_col cols incl excl = some c := by
  unfold findColR at h
  cases hf : find_col cols incl excl with
  | some c' => rw [hf] at h; simp at h; rw [h]
  | none => rw [hf] at h; simp at h

theorem except_bind_ok {ε α β : Type} {x : Except ε α} {f : α → Except ε β} {b : β}
    (h : x >>= f = Except.ok b) : ∃ a, x = Except.ok a ∧ f a = Except.ok b := by
  cases x with
  | error e =>
    simp only [bind, Except.bind] at h
    exact absurd h (by simp)
  | ok a =>
    refine ⟨a, rfl, ?_⟩
    simpa only [bind, Except.bind] using h

/-! ### Numeric parsing (`parse_numeric`, source lines 478-484) -/

/-- Numeric value of a digit string (most significant first). -/
def digitsToNat (l : List Char) : Nat :=
  l.foldl (fun a c => a * 10 + (c.toNat - 48)) 0

def ratParseBody (neg : Bool) (l : List Char) : Option ℚ :=
  let ip := l.takeWhile Char.isDigit
  let rest := l.dropWhile Char.isDigit
  match rest with
  | [] =>
    if ip.isEmpty then none
    else some (if neg then -(digitsToNat ip : ℚ) else (digitsToNat ip : ℚ))
  | '.' :: fp =>
    if (ip.isEmpty && fp.isEmpty) || !(fp.all Char.isDigit) then none
    else
      some (if neg then
        -((digitsToNat ip : ℚ) + (digitsToNat fp : ℚ) / ((10 : ℚ) ^ fp.length))
      else
        (digitsToNat ip : ℚ) + (digitsToNat fp : ℚ) / ((10 : ℚ) ^ fp.length))
  | _ => none

/-- Parse of a plain decimal literal (optional sign, integer part,
optional fractional part), the shape of every numeric cell the pipeline
meets; any other string fails, as `pd.to_numeric(errors="coerce")`
yields NaN on it. -/
def ratParse (s : String) : Option ℚ :=
  match s.data with
  | '-' :: r => ratParseBody true r
  | '+' :: r => ratParseBody false r
  | r => ratParseBody false r

/-- The `s.mask(s == ".", "0")` step: a cell that is exactly "." becomes
"0" (EIA suppression convention). -/
def maskDotStr (s : String) : String :=
  if s = "." then "0" else s

/-- Function `parse_numeric`: stringify, mask ".", strip commas, coerce to
numeric with non-parseable values becoming 0 (`fillna(0)`). -/
def parse_numeric (c : RawCell) : ℚ :=
  match ratParse (stripCommas (maskDotStr (cellStr c))) with
  | some q => q
  | none => 0

/-! ### Sales schedule loader (`load_sales_schedule`, source lines 371-500) -/

inductive SalesError where
  | headerNotFound
  | idColNotFound
  | insufficientAnchors (found : List Nat)
  deriving DecidableEq

/-- The sales header test of lines 396-399: a row containing both
"data year" and "utility number" (exact two-marker AND, no scoring). -/
def salesHeaderPred (r : List RawCell) : Bool :=
  r.any (fun c => strContains (lowerStr (cellStr c)) "data year") &&
  r.any (fun c => strContains (lowerStr (cellStr c)) "utility number")

/-- First row satisfying the sales header test (lines 395-401). -/
def salesHeaderRow (raw : List (List RawCell)) : Option Nat :=
  firstIdx salesHeaderPred raw

def rowAt (raw : List (List RawCell)) (i : Nat) : List RawCell :=
  raw.getD i []

/-- The Utility Number column: first header cell containing
"utility number" (lines 415-419). -/
def salesIdCol (hrow : List RawCell) : Option Nat :=
  firstIdx (fun c => strContains (lowerStr (cellStr c)) "utility number") hrow

/-- All anchor columns: indices of header cells containing
"thousand dollars", in ascending column order (lines 427-430). -/
def thousandCols (hrow : List RawCell) : List Nat :=
  (List.range hrow.length).filter
    (fun j => strContains (lowerStr (cellStr (hrow.getD j none))) "thousand dollars")

/-- The fixed sector order of line 444. -/
def sectorOrder : List String :=
  ["RESIDENTIAL", "COMMERCIAL", "INDUSTRIAL", "TRANSPORTATION", "TOTAL"]

/-- The sector label dictionary of lines 445-451. -/
def sector_labels (s : String) : String :=
  match s with
  | "RESIDENTIAL" => "Retail.Residential"
  | "COMMERCIAL" => "Retail.Commercial"
  | "INDUSTRIAL" => "Retail.Industrial"
  | "TRANSPORTATION" => "Retail.Transportation"
  | "TOTAL" => "Retail.Total"
  | _ => ""

/-- The row filter of lines 472-474: keep a data row only when its
utility-number cell is present and not whitespace-only. -/
def keepRow (idc : Nat) (r : List RawCell) : Bool :=
  (r.getD idc none).isSome && (trimStr (cellStr (r.getD idc none)) != "")

/-- The retained data rows: everything below the header row, filtered by
`keepRow` (lines 469-475). -/
def salesDataRows (raw : List (List RawCell)) (hr idc : Nat) : List (List RawCell) :=
  (raw.drop (hr + 1)).filter (keepRow idc)

/-- One output column of the sales loader: `parse_numeric` applied to
source column `j` of every retained data row. -/
def salesCol (raw : List (List RawCell)) (hr idc j : Nat) : List ℚ :=
  (salesDataRows raw hr idc).map (fun r => parse_numeric (r.getD j none))

/-- Coercion `pd.to_numeric(util_nums, errors="coerce")` on the key cells. -/
def salesUtilNums (raw : List (List RawCell)) (hr idc : Nat) : List (Option ℚ) :=
  (salesDataRows raw hr idc).map (fun r => (r.getD idc none).bind ratParse)

/-- Sector columns built from the anchor list: sector `k` of the fixed
order is paired with anchor `k`, and its (revenue, sales, customers)
triplet reads source columns (a, a+1, a+2) (lines 453-461 and 492-496);
`zip` performs the `break` of line 456 when anchors run out. -/
def mkSectorCols (raw : List (List RawCell)) (hr idc : Nat) (anchors : List Nat) :
    List (String × List ℚ) :=
  (sectorOrder.zip anchors).flatMap (fun p =>
    [(sector_labels p.1 ++ ".Revenue", salesCol raw hr idc p.2),
     (sector_labels p.1 ++ ".Sales", salesCol raw hr idc (p.2 + 1)),
     (sector_labels p.1 ++ ".Customers", salesCol raw hr idc (p.2 + 2))])

structure SalesOut where
  utilityNumber : List (Option ℚ)
  sectorCols : List (String × List ℚ)
  deriving DecidableEq, Inhabited

/-- Function `load_sales_schedule`: find the header, the utility-number column
and the anchors; fewer than five anchors is a hard error carrying the
found anchor columns; otherwise build the sector columns from the
retained data rows. -/
def load_sales_schedule (raw : List (List RawCell)) : Except SalesError SalesOut :=
  match salesHeaderRow raw with
  | none => Except.error SalesError.headerNotFound
  | some hr =>
    match salesIdCol (rowAt raw hr) with
    | none => Except.error SalesError.idColNotFound
    | some idc =>
      if (thousandCols (rowAt raw hr)).length < 5 then
        Except.error (SalesError.insufficientAnchors (thousandCols (rowAt raw hr)))
      else
        Except.ok
          { utilityNumber := salesUtilNums raw hr idc
            sectorCols := mkSectorCols raw hr idc (thousandCols (rowAt raw hr)) }

/-! ### Multi-source merger (`main`, source lines 539-577) -/

/-- A normalized table entering the merge: canonical value columns and
rows keyed by the (numeric, non-missing) Utility.Number join key. -/
structure CTable where
  cols : List String
  rows : List (Int × List Cell)
  deriving DecidableEq

/-- pandas `a.merge(b, on=key, how="left")`: every left row is kept; it
is paired with every matching right row, or with a right side of all
missing cells when the key is absent from `b`. -/
def leftJoin (a b : CTable) : CTable :=
  { cols := a.cols ++ b.cols
    rows := a.rows.flatMap (fun r =>
      let ms := b.rows.filter (fun s => s.1 == r.1)
      if ms.isEmpty then [(r.1, r.2 ++ List.replicate b.cols.length Cell.na)]
      else ms.map (fun s => (r.1, r.2 ++ s.2))) }

/-- Join `registry ⋈ operational ⋈ sales`, left-outer, in that order
(lines 539-540). -/
def mergeThree (reg op sales : CTable) : CTable :=
  leftJoin (leftJoin reg op) sales

/-- Step `merged.fillna(0)` on one cell (line 570). -/
def fillZeroCell : Cell → Cell
  | Cell.na => Cell.num 0
  | c => c

/-- The `merged.mask(merged == ".", 0)` step on one cell
(lines 572-574). -/
def dotZeroCell : Cell → Cell
  | Cell.str s => if s = "." then Cell.num 0 else Cell.str s
  | c => c

/-- The `merged.replace(",", "", regex=True)` step on one cell
(line 577). -/
def commaStripCell : Cell → Cell
  | Cell.str s => Cell.str (s.replace "," "")
  | c => c

/-- The per-cell part of the final cleaning, in source order: fill
missing with 0, turn a literal "." into 0, strip commas. -/
def cleanCell (c : Cell) : Cell :=
  commaStripCell (dotZeroCell (fillZeroCell c))

/-- Models `merged.dropna(how="all", subset=num_cols)` (lines 565-566):
a row is dropped only when every numeric cell is missing; the join key
`Utility.Number` is itself a numeric column and is never missing here
(the key of a row is an `Int`), so the filter keeps every row. -/
def dropAllNumericNa (rows : List (Int × List Cell)) : List (Int × List Cell) :=
  rows.filter (fun r => !(cellIsNa (Cell.num (r.1 : ℚ)) && r.2.all cellIsNa))

def dropDupsGo [DecidableEq α] (seen : List α) : List α → List α
  | [] => []
  | a :: l => if a ∈ seen then dropDupsGo seen l else a :: dropDupsGo (a :: seen) l

/-- Step `merged.drop_duplicates()`: keep the first occurrence of each row. -/
def dropDuplicates [DecidableEq α] (l : List α) : List α :=
  dropDupsGo [] l

/-- The post-merge cleaning of lines 564-577 in source order: drop
all-missing-numeric rows, drop duplicate rows, then clean each cell. -/
def cleanMerged (t : CTable) : CTable :=
  { cols := t.cols
    rows := (dropDuplicates (dropAllNumericNa t.rows)).map
      (fun r => (r.1, r.2.map cleanCell)) }

/-! ## Claims -/

/-- Claim C1: for every source table and every required field
specification, if no column matches any fallback keyword-set,
normalization fails with a missing-required-field error that names the
field and lists the available columns, aborts the normalization of that
table, and never substitutes a placeholder column for that field. -/
theorem c1_required_field_missing (schema : List FieldSpec) (cols : List String)
    (fs : FieldSpec) (hmem : fs ∈ schema) (hreq : fs.required = true)
    (hno : ∀ p ∈ fs.fallbacks, find_col cols p.1 p.2 = none) :
    ∃ e : ResolveError, normalize schema cols = Except.error e ∧
      e.available = cols ∧ ∃ g ∈ schema, g.required = true ∧ e.field = g.name := by
  induction schema with
  | nil => cases hmem
  | cons a rest ih =>
    cases hra : resolveField cols a with
    | error e =>
      obtain ⟨he, hr⟩ := resolveField_error_shape cols a e hra
      refine ⟨e, by simp [normalize, hra], by rw [he], a, List.mem_cons_self a rest, hr, by rw [he]⟩
    | ok c =>
      have hfs : fs ∈ rest := by
        rcases List.mem_cons.mp hmem with h1 | h2
        · subst h1
          rw [resolveField_required_none cols fs hreq hno] at hra
          cases hra
        · exact h2
      obtain ⟨e, hne, hav, g, hg, hgr, hgf⟩ := ih hfs
      exact ⟨e, by simp [normalize, hra, hne], hav, g, List.mem_cons_of_mem _ hg, hgr, hgf⟩

def c1SpecA : FieldSpec := ⟨"Utility.State", [(["state"], [])], true⟩

theorem c1_witness :
    c1SpecA ∈ [c1SpecA] ∧ c1SpecA.required = true ∧
    (∀ p ∈ c1SpecA.fallbacks, find_col ["foo", "bar"] p.1 p.2 = none) ∧
    ∃ e : ResolveError, normalize [c1SpecA] ["foo", "bar"] = Except.error e ∧
      e.available = ["foo", "bar"] ∧
      ∃ g ∈ [c1SpecA], g.required = true ∧ e.field = g.name :=
  ⟨List.mem_singleton.mpr rfl, rfl, by decide,
    c1_required_field_missing [c1SpecA] ["foo", "bar"] c1SpecA
      (List.mem_singleton.mpr rfl) rfl (by decide)⟩

/-- Claim C2: the header locator scores each row by the count of markers
appearing as case-insensitive substrings of some cell and returns the
lowest row index whose score reaches `max 2 (markers / 2)`; whenever some
row qualifies, the first qualifying row is returned, with no
backtracking. -/
theorem c2_header_locator (schedule : String) (rows : List (List RawCell))
    (h : ∃ i, i < rows.length ∧
      headerThreshold (markersOf schedule) ≤
        rowScore (markersOf schedule) (rows.getD i [])) :
    detect_header_row schedule rows < rows.length ∧
    headerThreshold (markersOf schedule) ≤
      rowScore (markersOf schedule) (rows.getD (detect_header_row schedule rows) []) ∧
    ∀ j, j < detect_header_row schedule rows →
      ¬ headerThreshold (markersOf schedule) ≤
          rowScore (markersOf schedule) (rows.getD j []) := by
  have hex : ∃ i, i < rows.length ∧
      decide (headerThreshold (markersOf schedule) ≤
        rowScore (markersOf schedule) (rows.getD i [])) = true := by
    obtain ⟨i, hi, hq⟩ := h
    exact ⟨i, hi, by simpa using hq⟩
  have hsome := firstIdx_isSome
    (fun r => decide (headerThreshold (markersOf schedule) ≤
      rowScore (markersOf schedule) r)) [] rows hex
  obtain ⟨i, hi⟩ := Option.isSome_iff_exists.mp hsome
  obtain ⟨hlen, hget, hmin⟩ := firstIdx_spec
    (fun r => decide (headerThreshold (markersOf schedule) ≤
      rowScore (markersOf schedule) r)) [] rows i hi
  have hdet : detect_header_row schedule rows = i := by
    unfold detect_header_row
    rw [hi]
  rw [hdet]
  exact ⟨hlen, by simpa using hget, fun j hj => by simpa using hmin j hj⟩

def c2Rows : List (List RawCell) :=
  [[some "notes"], [some "Data Year", some "Utility Number"]]

theorem c2_witness :
    (∃ i, i < c2Rows.length ∧
      headerThreshold (markersOf "utility") ≤
        rowScore (markersOf "utility") (c2Rows.getD i [])) ∧
    (detect_header_row "utility" c2Rows < c2Rows.length ∧
      headerThreshold (markersOf "utility") ≤
        rowScore (markersOf "utility") (c2Rows.getD (detect_header_row "utility" c2Rows) []) ∧
      ∀ j, j < detect_header_row "utility" c2Rows →
        ¬ headerThreshold (markersOf "utility") ≤
            rowScore (markersOf "utility") (c2Rows.getD j [])) :=
  ⟨⟨1, by decide, by decide⟩, c2_header_locator "utility" c2Rows ⟨1, by decide, by decide⟩⟩

/-- Claim C8: join-key resolution never aborts on a table with at least
one column: it tries the ordered id-like cascade first, then a
utility-name-like column (with a warning), then the first column of the
table (with a warning). -/
theorem c8_join_key_cascade (cols : List String) (hne : cols ≠ []) :
    (get_utility_id_col cols).isSome = true ∧
    (∀ c, idStage1 cols = some c → get_utility_id_col cols = some c) ∧
    (idStage1 cols = none → ∀ c, idStage2 cols = some c →
      get_utility_id_col cols = some c) ∧
    (idStage1 cols = none → idStage2 cols = none → ∀ c, idStage3 cols = some c →
      get_utility_id_col cols = some c) ∧
    (idStage1 cols = none → idStage2 cols = none → idStage3 cols = none →
      ∀ c, idStage4 cols = some c → get_utility_id_col cols = some c) ∧
    (idStage1 cols = none → idStage2 cols = none → idStage3 cols = none →
      idStage4 cols = none → get_utility_id_col cols = cols.head?) := by
  refine ⟨?_, ?_, ?_, ?_, ?_, ?_⟩
  · unfold get_utility_id_col
    cases h1 : idStage1 cols with
    | some c => simp
    | none =>
      cases h2 : idStage2 cols with
      | some c => simp
      | none =>
        cases h3 : idStage3 cols with
        | some c => simp
        | none =>
          cases h4 : idStage4 cols with
          | some c => simp
          | none =>
            cases cols with
            | nil => exact absurd rfl hne
            | cons a l => simp
  · intro c h1; simp [get_utility_id_col, h1]
  · intro h1 c h2; simp [get_utility_id_col, h1, h2]
  · intro h1 h2 c h3; simp [get_utility_id_col, h1, h2, h3]
  · intro h1 h2 h3 c h4; simp [get_utility_id_col, h1, h2, h3, h4]
  · intro h1 h2 h3 h4; simp [get_utility_id_col, h1, h2, h3, h4]

theorem c8_witness :
    (["County", "Zip"] : List String) ≠ [] ∧
    idStage1 ["County", "Zip"] = none ∧ idStage2 ["County", "Zip"] = none ∧
    idStage3 ["County", "Zip"] = none ∧ idStage4 ["County", "Zip"] = none ∧
    get_utility_id_col ["County", "Zip"] = some "County" :=
  ⟨by decide, by decide, by decide, by decide, by decide, by
    have h := (c8_join_key_cascade ["County", "Zip"] (by decide)).2.2.2.2.2
      (by decide) (by decide) (by decide) (by decide)
    simpa using h⟩

/-- Claim C5: a sales-by-sector table whose header row has fewer than
five "Thousand Dollars" anchor columns makes normalization fail with the
hard insufficient-anchors error carrying the found anchor columns, and
no partial output is produced. -/
theorem c5_insufficient_anchors (raw : List (List RawCell)) (hr idc : Nat)
    (hh : salesHeaderRow raw = some hr)
    (hid : salesIdCol (rowAt raw hr) = some idc)
    (hlen : (thousandCols (rowAt raw hr)).length < 5) :
    load_sales_schedule raw =
      Except.error (SalesError.insufficientAnchors (thousandCols (rowAt raw hr))) := by
  simp only [load_sales_schedule, hh, hid, if_pos hlen]

def rawSalesB : List (List RawCell) :=
  [[some "Data Year", some "Utility Number", some "Thousand Dollars",
    some "Thousand Dollars", some "Thousand Dollars"]]

theorem c5_witness :
    salesHeaderRow rawSalesB = some 0 ∧
    salesIdCol (rowAt rawSalesB 0) = some 1 ∧
    (thousandCols (rowAt rawSalesB 0)).length < 5 ∧
    load_sales_schedule rawSalesB =
      Except.error (SalesError.insufficientAnchors (thousandCols (rowAt rawSalesB 0))) :=
  ⟨by decide, by decide, by decide,
    c5_insufficient_anchors rawSalesB 0 1 (by decide) (by decide) (by decide)⟩

/-- Claim C7: numeric parsing of sales-by-sector cells maps a cell that
is exactly "." to zero, strips thousands-separator commas, coerces to
numeric with every non-parseable value becoming zero; and the merged
table's final cleaning turns a literal "." cell into 0. -/
theorem c7_numeric_parsing :
    (∀ c : RawCell, cellStr c = "." → parse_numeric c = 0) ∧
    (∀ s q, ratParse (stripCommas (maskDotStr s)) = some q →
      parse_numeric (some s) = q) ∧
    (∀ s, ratParse (stripCommas (maskDotStr s)) = none →
      parse_numeric (some s) = 0) ∧
    cleanCell (Cell.str ".") = Cell.num 0 := by
  refine ⟨?_, ?_, ?_, rfl⟩
  · intro c hc
    unfold parse_numeric
    rw [hc]
    decide
  · intro s q hq
    unfold parse_numeric
    simp only [cellStr]
    rw [hq]
  · intro s hn
    unfold parse_numeric
    simp only [cellStr]
    rw [hn]

theorem c7_witness :
    cellStr (some ".") = "." ∧ parse_numeric (some ".") = 0 ∧
    ratParse (stripCommas (maskDotStr "1,234")) = some 1234 ∧
    parse_numeric (some "1,234") = 1234 ∧
    ratParse (stripCommas (maskDotStr "zz")) = none ∧
    parse_numeric (some "zz") = 0 :=
  ⟨rfl, c7_numeric_parsing.1 (some ".") rfl,
    by decide, c7_numeric_parsing.2.1 "1,234" 1234 (by decide),
    by decide, c7_numeric_parsing.2.2.1 "zz" (by decide)⟩

theorem list_five_destruct : ∀ (l : List Nat), 5 ≤ l.length →
    ∃ a0 a1 a2 a3 a4 rest, l = a0 :: a1 :: a2 :: a3 :: a4 :: rest
  | a0 :: a1 :: a2 :: a3 :: a4 :: rest, _ => ⟨a0, a1, a2, a3, a4, rest, rfl⟩
  | [], h => absurd h (by simp)
  | [_], h => absurd h (by simp)
  | [_, _], h => absurd h (by simp)
  | [_, _, _], h => absurd h (by simp)
  | [_, _, _, _], h => absurd h (by simp)

theorem load_sales_ok_destruct (raw : List (List RawCell)) (hr idc : Nat)
    (out : SalesOut) (hh : salesHeaderRow raw = some hr)
    (hid : salesIdCol (rowAt raw hr) = some idc)
    (hok : load_sales_schedule raw = Except.ok out) :
    5 ≤ (thousandCols (rowAt raw hr)).length ∧
    out = ⟨salesUtilNums raw hr idc,
      mkSectorCols raw hr idc (thousandCols (rowAt raw hr))⟩ := by
  simp only [load_sales_schedule, hh, hid] at hok
  by_cases hlt : (thousandCols (rowAt raw hr)).length < 5
  · rw [if_pos hlt] at hok
    exact absurd hok (by simp)
  · rw [if_neg hlt] at hok
    exact ⟨Nat.le_of_not_lt hlt, (Except.ok.inj hok).symm⟩

/-- Claim C4: in a sales-by-sector table with at least five anchor
columns, the anchors are in ascending column order and sector `k` of the
fixed order takes its revenue from anchor column `a`, its sales from
`a + 1` and its customers from `a + 2`. -/
theorem c4_sector_triplets (raw : List (List RawCell)) (hr idc : Nat)
    (out : SalesOut) (hh : salesHeaderRow raw = some hr)
    (hid : salesIdCol (rowAt raw hr) = some idc)
    (hok : load_sales_schedule raw = Except.ok out) :
    List.Pairwise (· < ·) (thousandCols (rowAt raw hr)) ∧
    ∀ k, k < 5 →
      out.sectorCols.getD (3 * k) ("", []) =
        (sector_labels (sectorOrder.getD k "") ++ ".Revenue",
          salesCol raw hr idc ((thousandCols (rowAt raw hr)).getD k 0)) ∧
      out.sectorCols.getD (3 * k + 1) ("", []) =
        (sector_labels (sectorOrder.getD k "") ++ ".Sales",
          salesCol raw hr idc ((thousandCols (rowAt raw hr)).getD k 0 + 1)) ∧
      out.sectorCols.getD (3 * k + 2) ("", []) =
        (sector_labels (sectorOrder.getD k "") ++ ".Customers",
          salesCol raw hr idc ((thousandCols (rowAt raw hr)).getD k 0 + 2)) := by
  obtain ⟨h5, hout⟩ := load_sales_ok_destruct raw hr idc out hh hid hok
  constructor
  · show List.Pairwise (· < ·) (thousandCols (rowAt raw hr))
    unfold thousandCols
    exact List.Pairwise.sublist (List.filter_sublist _) (List.pairwise_lt_range _)
  · obtain ⟨a0, a1, a2, a3, a4, rest, hA⟩ := list_five_destruct _ h5
    subst hout
    intro k hk
    interval_cases k <;>
      simp [mkSectorCols, sectorOrder, sector_labels, hA]

def rawSalesA : List (List RawCell) :=
  [[some "Electric Power Sales"],
   [some "Data Year", some "Utility Number", some "Thousand Dollars",
    some "Megawatthours", some "Count",
    some "Thousand Dollars", some "Megawatthours", some "Count",
    some "Thousand Dollars", some "Megawatthours", some "Count",
    some "Thousand Dollars", some "Megawatthours", some "Count",
    some "Thousand Dollars", some "Megawatthours", some "Count",
    some "Thousand Dollars", some "Megawatthours", some "Count"],
   [some "2024", some "55", some "4,211", some "34239", some "2592",
    some "3550", some "29391", some "736",
    some "7185", some "127260", some "2",
    some "0", some "0", some "0",
    some "14946", some "190890", some "3330",
    some ".", some "1", some "2"],
   [some "2024", some "   "],
   [some "2024", none, some "9"]]

def salesOutA : SalesOut :=
  (load_sales_schedule rawSalesA).toOption.getD default

theorem c4_witness :
    salesHeaderRow rawSalesA = some 1 ∧
    salesIdCol (rowAt rawSalesA 1) = some 1 ∧
    load_sales_schedule rawSalesA = Except.ok salesOutA ∧
    (thousandCols (rowAt rawSalesA 1)).getD 0 0 = 2 ∧
    salesOutA.sectorCols.getD 0 ("", []) =
      (sector_labels (sectorOrder.getD 0 "") ++ ".Revenue",
        salesCol rawSalesA 1 1 ((thousandCols (rowAt rawSalesA 1)).getD 0 0)) :=
  ⟨by decide, by decide, by rfl, by decide, by
    have h := ((c4_sector_triplets rawSalesA 1 1 salesOutA (by decide) (by decide)
      (by rfl)).2 0 (by decide)).1
    simpa using h⟩

/-- Claim C9: sales-by-sector normalization silently excludes every data
row below the header whose utility-number cell is missing or
whitespace-only, and every output row originates from a retained source
row with a non-blank join-key cell. -/
theorem c9_blank_keys_excluded (raw : List (List RawCell)) (hr idc : Nat)
    (out : SalesOut) (hh : salesHeaderRow raw = some hr)
    (hid : salesIdCol (rowAt raw hr) = some idc)
    (hok : load_sales_schedule raw = Except.ok out) :
    (∀ r ∈ raw.drop (hr + 1), keepRow idc r = false →
      r ∉ salesDataRows raw hr idc) ∧
    (∀ r ∈ raw.drop (hr + 1), keepRow idc r = true →
      r ∈ salesDataRows raw hr idc) ∧
    (∀ r ∈ salesDataRows raw hr idc, keepRow idc r = true) ∧
    out.utilityNumber =
      (salesDataRows raw hr idc).map (fun r => (r.getD idc none).bind ratParse) := by
  obtain ⟨h5, hout⟩ := load_sales_ok_destruct raw hr idc out hh hid hok
  refine ⟨?_, ?_, ?_, ?_⟩
  · intro r hmem hfalse hin
    simp [salesDataRows, List.mem_filter, hfalse] at hin
  · intro r hmem htrue
    simp [salesDataRows, List.mem_filter, hmem, htrue]
  · intro r hin
    exact (List.mem_filter.mp (by simpa [salesDataRows] using hin)).2
  · subst hout
    rfl

theorem c9_witness :
    load_sales_schedule rawSalesA = Except.ok salesOutA ∧
    keepRow 1 (rawSalesA.getD 3 []) = false ∧
    rawSalesA.getD 3 [] ∉ salesDataRows rawSalesA 1 1 ∧
    salesOutA.utilityNumber =
      (salesDataRows rawSalesA 1 1).map (fun r => (r.getD 1 none).bind ratParse) := by
  have h := c9_blank_keys_excluded rawSalesA 1 1 salesOutA (by decide) (by decide) (by rfl)
  exact ⟨by rfl, by decide, h.1 _ (by decide) (by decide), h.2.2.2⟩

/-- Claim C10: with more than five anchor columns, exactly the first
five anchors (in ascending column order) are used for the five sectors
in order; anchors beyond the fifth contribute no output columns. -/
theorem c10_extra_anchors_ignored (raw : List (List RawCell)) (hr idc : Nat)
    (out : SalesOut) (hh : salesHeaderRow raw = some hr)
    (hid : salesIdCol (rowAt raw hr) = some idc)
    (hok : load_sales_schedule raw = Except.ok out)
    (_hmore : 5 < (thousandCols (rowAt raw hr)).length) :
    out.sectorCols = mkSectorCols raw hr idc ((thousandCols (rowAt raw hr)).take 5) ∧
    out.sectorCols.length = 15 := by
  obtain ⟨h5, hout⟩ := load_sales_ok_destruct raw hr idc out hh hid hok
  obtain ⟨a0, a1, a2, a3, a4, rest, hA⟩ := list_five_destruct _ h5
  subst hout
  constructor
  · simp [mkSectorCols, sectorOrder, hA]
  · simp [mkSectorCols, sectorOrder, hA]

theorem c10_witness :
    load_sales_schedule rawSalesA = Except.ok salesOutA ∧
    5 < (thousandCols (rowAt rawSalesA 1)).length ∧
    salesOutA.sectorCols =
      mkSectorCols rawSalesA 1 1 ((thousandCols (rowAt rawSalesA 1)).take 5) ∧
    salesOutA.sectorCols.length = 15 := by
  have h := c10_extra_anchors_ignored rawSalesA 1 1 salesOutA (by decide) (by decide)
    (by rfl) (by decide)
  exact ⟨by rfl, by decide, h.1, h.2⟩

/-- Claim C6: if the designated explicit-total revenue column resolves,
Revenue.Total is that column verbatim; otherwise it is the sum of the six
resolved constituent revenue columns, and the fallback is reached only
with all six constituents resolved. -/
theorem c6_revenue_total (df : DFrame) (out : OpOut)
    (h : load_operational df = Except.ok out) :
    (∃ d, find_col (opDf5 df).cols ["from", "retail", "sales"] [] = some d ∧
      out.revRetail = dfColumn (opDf5 df) d) ∧
    (∃ d, find_col (opDf5 df).cols ["from", "delivery", "customers"] [] = some d ∧
      out.revDelivery = dfColumn (opDf5 df) d) ∧
    (∃ d, find_col (opDf5 df).cols ["from", "sales", "for resale"] [] = some d ∧
      out.revResale = dfColumn (opDf5 df) d) ∧
    (∃ d, find_col (opDf5 df).cols ["from", "credits", "adjustments"] [] = some d ∧
      out.revAdjustments = dfColumn (opDf5 df) d) ∧
    (∃ d, find_col (opDf5 df).cols ["from", "transmission"] [] = some d ∧
      out.revTransmission = dfColumn (opDf5 df) d) ∧
    (∃ d, find_col (opDf5 df).cols ["from", "other"] [] = some d ∧
      out.revOther = dfColumn (opDf5 df) d) ∧
    (∀ c, find_col (opDf5 df).cols ["total"] ["sales", "customers", "mwh", "kwh"] = some c →
      out.revTotal = dfColumn (opDf5 df) c) ∧
    (find_col (opDf5 df).cols ["total"] ["sales", "customers", "mwh", "kwh"] = none →
      out.revTotal = colAdd (colAdd (colAdd (colAdd (colAdd out.revRetail
        out.revDelivery) out.revResale) out.revAdjustments)
        out.revTransmission) out.revOther) := by
  unfold load_operational at h
  obtain ⟨summer, h1, h⟩ := except_bind_ok h
  obtain ⟨winter, h2, h⟩ := except_bind_ok h
  obtain ⟨gen, h3, h⟩ := except_bind_ok h
  obtain ⟨purch, h4, h⟩ := except_bind_ok h
  obtain ⟨resale, h5, h⟩ := except_bind_ok h
  obtain ⟨noCharge, h6, h⟩ := except_bind_ok h
  obtain ⟨consumed, h7, h⟩ := except_bind_ok h
  obtain ⟨rvRetail, h8, h⟩ := except_bind_ok h
  obtain ⟨rvDelivery, h9, h⟩ := except_bind_ok h
  obtain ⟨rvResale, h10, h⟩ := except_bind_ok h
  obtain ⟨rvAdjust, h11, h⟩ := except_bind_ok h
  obtain ⟨rvTransm, h12, h⟩ := except_bind_ok h
  obtain ⟨rvOther, h13, h⟩ := except_bind_ok h
  have hout : out = _ := (Except.ok.inj h).symm
  subst hout
  refine ⟨⟨rvRetail, findColR_ok _ _ _ _ _ h8, rfl⟩,
    ⟨rvDelivery, findColR_ok _ _ _ _ _ h9, rfl⟩,
    ⟨rvResale, findColR_ok _ _ _ _ _ h10, rfl⟩,
    ⟨rvAdjust, findColR_ok _ _ _ _ _ h11, rfl⟩,
    ⟨rvTransm, findColR_ok _ _ _ _ _ h12, rfl⟩,
    ⟨rvOther, findColR_ok _ _ _ _ _ h13, rfl⟩, ?_, ?_⟩
  · intro c hc
    simp only [hc]
  · intro hn
    simp only [hn]

def opDfB : DFrame :=
  ⟨["Utility Number", "Summer Peak Demand", "Winter Peak Demand", "Net Generation",
    "Wholesale Power Purchases", "Other Sources", "Total Sources MWh", "Retail Sales",
    "Sales for Resale", "Furnished without Charge", "Consumed by Respondent",
    "Total Energy Losses MWh", "Total Disposition MWh", "Revenue from Retail Sales",
    "Revenue from Delivery Customers", "Revenue from Sales for Resale",
    "Revenue from Credits Adjustments", "Revenue from Transmission",
    "Revenue from Other"],
   [[Cell.num 1, Cell.num 10, Cell.num 20, Cell.num 5, Cell.num 6, Cell.num 7,
     Cell.num 18, Cell.num 30, Cell.num 31, Cell.num 32, Cell.num 33, Cell.num 34,
     Cell.num 35, Cell.num 100, Cell.num 200, Cell.num 300, Cell.num 400,
     Cell.num 500, Cell.num 600]]⟩

def opOutB : OpOut :=
  (load_operational opDfB).toOption.getD default

theorem c6_witness :
    load_operational opDfB = Except.ok opOutB ∧
    find_col (opDf5 opDfB).cols ["total"] ["sales", "customers", "mwh", "kwh"] = none ∧
    opOutB.revTotal = colAdd (colAdd (colAdd (colAdd (colAdd opOutB.revRetail
      opOutB.revDelivery) opOutB.revResale) opOutB.revAdjustments)
      opOutB.revTransmission) opOutB.revOther := by
  have h := c6_revenue_total opDfB opOutB (by rfl)
  exact ⟨by rfl, by decide, h.2.2.2.2.2.2.2 (by decide)⟩

theorem mem_dropDupsGo [DecidableEq α] (b : α) :
    ∀ (l seen : List α), b ∈ dropDupsGo seen l ↔ b ∈ l ∧ b ∉ seen := by
  intro l
  induction l with
  | nil => intro seen; simp [dropDupsGo]
  | cons a t ih =>
    intro seen
    by_cases ha : a ∈ seen
    · rw [dropDupsGo, if_pos ha, ih]
      constructor
      · rintro ⟨hbt, hbs⟩
        exact ⟨List.mem_cons_of_mem _ hbt, hbs⟩
      · rintro ⟨hb, hbs⟩
        rcases List.mem_cons.mp hb with rfl | hbt
        · exact absurd ha hbs
        · exact ⟨hbt, hbs⟩
    · rw [dropDupsGo, if_neg ha]
      simp only [List.mem_cons, ih, not_or]
      constructor
      · rintro (rfl | ⟨hbt, hba, hbs⟩)
        · exact ⟨Or.inl rfl, ha⟩
        · exact ⟨Or.inr hbt, hbs⟩
      · rintro ⟨rfl | hbt, hbs⟩
        · exact Or.inl rfl
        · by_cases hba : b = a
          · exact Or.inl hba
          · exact Or.inr ⟨hbt, hba, hbs⟩

theorem mem_dropDuplicates [DecidableEq α] (b : α) (l : List α) :
    b ∈ dropDuplicates l ↔ b ∈ l := by
  simp [dropDuplicates, mem_dropDupsGo]

theorem dropAllNumericNa_eq (rows : List (Int × List Cell)) :
    dropAllNumericNa rows = rows := by
  unfold dropAllNumericNa
  apply List.filter_eq_self.mpr
  intro r _
  simp [cellIsNa]

theorem leftJoin_keeps (a b : CTable) (k : Int) (vs : List Cell)
    (h : (k, vs) ∈ a.rows) :
    ∃ ws, (k, vs ++ ws) ∈ (leftJoin a b).rows ∧
      ((∀ r ∈ b.rows, r.1 ≠ k) → ws = List.replicate b.cols.length Cell.na) := by
  by_cases hm : (b.rows.filter (fun s => s.1 == k)).isEmpty = true
  · refine ⟨List.replicate b.cols.length Cell.na, ?_, fun _ => rfl⟩
    simp only [leftJoin, List.mem_flatMap]
    exact ⟨(k, vs), h, by simp [hm]⟩
  · have hne : b.rows.filter (fun s => s.1 == k) ≠ [] := by
      simpa [List.isEmpty_iff] using hm
    obtain ⟨s, hs⟩ := List.exists_mem_of_ne_nil _ hne
    refine ⟨s.2, ?_, ?_⟩
    · simp only [leftJoin, List.mem_flatMap]
      refine ⟨(k, vs), h, ?_⟩
      simp only []
      rw [if_neg hm]
      exact List.mem_map.mpr ⟨s, hs, rfl⟩
    · intro hno
      have hsb := List.mem_filter.mp hs
      have hk : s.1 = k := by simpa using hsb.2
      exact absurd hk (hno s hsb.1)

theorem cleanMerged_mem (t : CTable) (k : Int) (cs : List Cell)
    (h : (k, cs) ∈ t.rows) :
    (k, cs.map cleanCell) ∈ (cleanMerged t).rows := by
  simp only [cleanMerged, dropAllNumericNa_eq]
  exact List.mem_map.mpr ⟨(k, cs), (mem_dropDuplicates _ _).mpr h, rfl⟩

/-- Claim C3: the merge is a left-outer join of registry with
operational then sales on the join key; a registry row whose key is
absent from the operational (resp. sales) table is kept in the cleaned
merged output with the columns of the missing table filled with the
zero placeholder, not dropped. -/
theorem c3_left_outer_join (reg op sales : CTable) (k : Int) (vs : List Cell)
    (hmem : (k, vs) ∈ reg.rows) :
    ((∀ r ∈ op.rows, r.1 ≠ k) →
      ∃ tl, (k, vs.map cleanCell ++ List.replicate op.cols.length (Cell.num 0) ++ tl)
        ∈ (cleanMerged (mergeThree reg op sales)).rows) ∧
    ((∀ r ∈ sales.rows, r.1 ≠ k) →
      ∃ mid, (k, vs.map cleanCell ++ mid ++ List.replicate sales.cols.length (Cell.num 0))
        ∈ (cleanMerged (mergeThree reg op sales)).rows) := by
  have hna : cleanCell Cell.na = Cell.num 0 := rfl
  unfold mergeThree
  constructor
  · intro hop
    obtain ⟨ws1, hj1, hrep⟩ := leftJoin_keeps reg op k vs hmem
    rw [hrep hop] at hj1
    obtain ⟨ws2, hj2, _⟩ := leftJoin_keeps (leftJoin reg op) sales k _ hj1
    refine ⟨ws2.map cleanCell, ?_⟩
    have hmm := cleanMerged_mem (leftJoin (leftJoin reg op) sales) k _ hj2
    simpa [List.map_append, List.map_replicate, hna, List.append_assoc] using hmm
  · intro hsales
    obtain ⟨ws1, hj1, _⟩ := leftJoin_keeps reg op k vs hmem
    obtain ⟨ws2, hj2, hrep2⟩ := leftJoin_keeps (leftJoin reg op) sales k _ hj1
    rw [hrep2 hsales] at hj2
    refine ⟨ws1.map cleanCell, ?_⟩
    have hmm := cleanMerged_mem (leftJoin (leftJoin reg op) sales) k _ hj2
    simpa [List.map_append, List.map_replicate, hna, List.append_assoc] using hmm

def regW : CTable := ⟨["Utility.Name"], [(1234, [Cell.str "City Power"])]⟩

def opW : CTable := ⟨["Demand.Summer Peak"], [(99, [Cell.num 5])]⟩

def salesW : CTable := ⟨["Retail.Residential.Revenue"], [(1234, [Cell.num 7])]⟩

theorem c3_witness :
    (((1234 : Int), [Cell.str "City Power"]) ∈ regW.rows) ∧
    (∀ r ∈ opW.rows, r.1 ≠ (1234 : Int)) ∧
    ∃ tl, ((1234 : Int), [Cell.str "City Power"].map cleanCell ++
      List.replicate opW.cols.length (Cell.num 0) ++ tl)
      ∈ (cleanMerged (mergeThree regW opW salesW)).rows := by
  refine ⟨by decide, by decide, ?_⟩
  exact (c3_left_outer_join regW opW salesW 1234 [Cell.str "City Power"]
    (by decide)).1 (by decide)

end Electricity
